import Mathlib

/-!
Verification development for `tools/codegen/dest/gen_external_aten_fallbacks.py`,
the per-operation code generator that emits CPU-fallback declarations,
registrations and definitions for an external ATen backend.

The Python source is shallowly embedded below: each top-level Python function
and each local of `gen_unstructured_external` becomes a Lean definition of the
same name.  Data-model types consumed from collaborators outside this file
(`tools.codegen.model`, `tools.codegen.api.*`) are modelled from the spec and
marked as such in their doc comments.  Text generation is pure; the definition
target is embedded in a small counting monad `GenM` so that the number of
invocations of the device-argument selector, and the fatal errors the source
raises, are observable.
-/

namespace ExtFallback

/-- Modelled from the spec: the base-type tags of the schema data model
(`tools.codegen.model.BaseTy`, outside `src/`).  Only `Tensor` and `Device`
are inspected by the generator; every other base type is carried opaquely. -/
inductive BaseTy where
  | Tensor
  | Device
  | other (tag : String)
deriving DecidableEq, Repr

/-- Modelled from the spec: a parameter/return type is a tagged union of a base
type, an optional wrapper, or a list (`tools.codegen.model.Type`, outside
`src/`). -/
inductive CType where
  | base (t : BaseTy)
  | optional (elem : CType)
  | list (elem : CType) (size : Option Nat)
deriving DecidableEq, Repr

/-- Modelled from the spec: "tensor-like (covers any tensor-bearing type
including lists)" — `Type.is_tensor_like` of `tools.codegen.model`, outside
`src/`: a base type is tensor-like iff it is `Tensor`; optionals and lists are
tensor-like iff their element type is. -/
def CType.is_tensor_like : CType → Bool
  | CType.base t => t == BaseTy.Tensor
  | CType.optional e => CType.is_tensor_like e
  | CType.list e _ => CType.is_tensor_like e

/-- Modelled from the spec: a mutation annotation on a parameter
(`tools.codegen.model.Annotation`, outside `src/`); `is_write` marks the
parameter as a write target (in-place/out semantics). -/
structure Annot where
  is_write : Bool
deriving DecidableEq, Repr

/-- Modelled from the spec: one parameter of an operation schema — name,
declared type, and an optional mutation annotation
(`tools.codegen.model.Argument`, outside `src/`; its field is named
`annotation` in the source). -/
structure Argument where
  name : String
  type : CType
  annot : Option Annot
deriving DecidableEq, Repr

/-- Embeds `Argument.is_write` of `tools.codegen.model` (outside `src/`): the
annotation is present and marks a write. -/
def Argument.is_write (a : Argument) : Bool :=
  match a.annot with
  | some al => al.is_write
  | none => false

/-- Modelled from the spec: one return spec — optional declared name, declared
type, and the reference/alias flag (`tools.codegen.model.Return`, outside
`src/`). -/
structure Return where
  name : Option String
  type : CType
  is_write : Bool
deriving DecidableEq, Repr

/-- Modelled from the spec: a dispatch key; "generic" keys are the
backend-agnostic (composite) ones.  The concrete key list lives in
`tools.codegen.model` outside `src/`, so a key is modelled as carrying its
genericity. -/
structure DispatchKey where
  name : String
  generic : Bool
deriving DecidableEq, Repr

/-- Embeds `is_generic_dispatch_key` of `tools.codegen.model` (outside `src/`)
against the modelled `DispatchKey`. -/
def is_generic_dispatch_key (k : DispatchKey) : Bool := k.generic

/-- Modelled from the spec: the call-convention variants an operation declares
(`tools.codegen.model.Variant`, outside `src/`). -/
inductive Variant where
  | function
  | method
deriving DecidableEq, Repr

/-- Modelled from the spec: an operation schema — qualified name (possibly
overload-qualified, the text of `func.name`), the parameter list already in the
pre-normalized canonical dispatcher order, and the return specs
(`tools.codegen.model.FunctionSchema`, outside `src/`). -/
structure FunctionSchema where
  name : String
  args : List Argument
  returns : List Return
deriving DecidableEq, Repr

/-- Modelled from the spec: the native-function record — its schema, its
dispatch-key entries, and its declared variants
(`tools.codegen.model.NativeFunction`, outside `src/`). -/
structure NativeFunction where
  func : FunctionSchema
  dispatch : List DispatchKey
  variants : List Variant
deriving DecidableEq, Repr

/-- Modelled from the spec: backend metadata presence signals a native
(non-fallback) implementation (`tools.codegen.model.ExternalBackendFunction`,
outside `src/`); the metadata payload (kernel name) is carried opaquely. -/
structure ExternalBackendFunction where
  native_function : NativeFunction
  metadata : Option String
deriving DecidableEq, Repr

/-- Modelled from the spec: an operation family of functional / in-place / out
variants, with the structured flag
(`tools.codegen.model.ExternalBackendFunctionsGroup`, outside `src/`). -/
structure ExternalBackendFunctionsGroup where
  functional : ExternalBackendFunction
  inplace : Option ExternalBackendFunction
  out : Option ExternalBackendFunction
  structured : Bool
deriving DecidableEq, Repr

/-- Modelled from the spec: the member operations of a family, functional
variant first (`ExternalBackendFunctionsGroup.functions()`, outside `src/`). -/
def ExternalBackendFunctionsGroup.functions
    (g : ExternalBackendFunctionsGroup) : List ExternalBackendFunction :=
  g.functional :: (g.inplace.toList ++ g.out.toList)

/-! ### The denylist and its regular-expression dialect -/

/-- One token of the tiny regular-expression dialect the denylist patterns
use: a literal character, the any-character dot, or a starred negated
character class (the fragment `[^…]*`). -/
inductive RTok where
  | lit (c : Char)
  | dot
  | starNot (cs : List Char)
deriving DecidableEq, Repr

/-- Embeds Python `re.match` for the dialect above: does some prefix of the
character list match the token list?  `re.match` anchors at the start of the
string only.  The explicit fuel makes the backtracking search structurally
recursive; every recursive call shrinks pattern-length plus text-length, so
the fuel supplied by `reMatch` is never exhausted. -/
def reMatchF : Nat → List RTok → List Char → Bool
  | 0, _, _ => false
  | _ + 1, [], _ => true
  | _ + 1, RTok.lit _ :: _, [] => false
  | fuel + 1, RTok.lit c :: p, d :: s => c == d && reMatchF fuel p s
  | _ + 1, RTok.dot :: _, [] => false
  | fuel + 1, RTok.dot :: p, _ :: s => reMatchF fuel p s
  | fuel + 1, RTok.starNot _ :: p, [] => reMatchF fuel p []
  | fuel + 1, RTok.starNot cs :: p, d :: s =>
      reMatchF fuel p (d :: s) || (!cs.contains d && reMatchF fuel (RTok.starNot cs :: p) s)

/-- Python `re.match(pattern, s)` viewed as a Boolean, for the dialect used by
the denylist. -/
def reMatch (p : List RTok) (s : List Char) : Bool :=
  reMatchF (p.length + s.length + 1) p s

/-- Translates the literal part of a source pattern: in a Python regex a bare
`.` matches any character, every other character used by the denylist patterns
is a literal. -/
def toks (s : String) : List RTok :=
  s.data.map (fun c => if c == '.' then RTok.dot else RTok.lit c)

/-- Embeds `_FN_DENYLIST_REGEX` (source lines 18-27): the fixed list of
operator-name patterns whose operations never get a CPU fallback. -/
def _FN_DENYLIST_REGEX : List (List RTok) := [
  RTok.starNot ['('] :: toks "cudnn",
  toks "slow_conv_transpose2d_backward.grad_output",
  toks "slow_conv_transpose3d_backward.grad_output",
  toks "slow_conv3d_backward.grad_input",
  toks "thnn_conv2d_backward.grad_input",
  toks "thnn_conv_depthwise2d_backward.grad_input"]

/-! ### Eligibility filter -/

/-- Embeds `requires_backend_wrapper` (source lines 69-73). -/
def requires_backend_wrapper (f : ExternalBackendFunction) : Bool :=
  let requires_lowering :=
    !(f.native_function.dispatch.any (fun k => is_generic_dispatch_key k))
  let has_xla_lowering := f.metadata.isSome
  let in_denylist :=
    _FN_DENYLIST_REGEX.any (fun frx => reMatch frx f.native_function.func.name.data)
  !in_denylist && (requires_lowering || has_xla_lowering)

/-! ### Result wrapper -/

/-- Embeds `xla_tensor_creation_api` (source lines 75-94): a bare non-reference
`Tensor` return, or a list-of-`Tensor` return, is wrapped through the device
creation API; every other return is passed through as `ret_name`. -/
def xla_tensor_creation_api (ret_name : String) (ret : Return)
    (device_param_name : String) (cpu_result_name : String) : String :=
  if ret.type == CType.base BaseTy.Tensor && !ret.is_write then
    "to_device_opt(" ++ cpu_result_name ++ ", get_device_arg(" ++ device_param_name ++ "))"
  else
    match ret.type with
    | CType.list e _ =>
        if e == CType.base BaseTy.Tensor then
          "to_device_opt(" ++ cpu_result_name ++ ", get_device_arg(" ++ device_param_name ++ "))"
        else ret_name
    | _ => ret_name

/-! ### Device-argument selector -/

/-- Embeds `get_device_param` (source lines 124-140).  The source raises
`AssertionError` when no candidate exists; the embedding returns that message
in `Except.error`. -/
def get_device_param (args : List Argument) : Except String String :=
  match args.filter (fun a =>
      (a.type == CType.base BaseTy.Tensor
        || a.type == CType.optional (CType.base BaseTy.Tensor))
      && !a.is_write) with
  | a :: _ => Except.ok a.name
  | [] =>
    match args.filter (fun a => a.type.is_tensor_like) with
    | a :: _ => Except.ok a.name
    | [] =>
      match args.filter (fun a =>
          a.type == CType.base BaseTy.Device
            || a.type == CType.optional (CType.base BaseTy.Device)) with
      | a :: _ => Except.ok a.name
      | [] => Except.error "Need a tensor-like or device argument in order to determine the output device"

/-! ### The counting generation monad

The definition target is embedded in `GenM`: a state monad counting the
invocations of the device-argument selector, combined with the fatal errors
the source raises (so that "raises", "runs once" and "emits no text" are
observable statements about the embedding). -/

/-- The errors the generator can raise: a Python `AssertionError` with its
message, the `assert_never` unreachable-state assertion applied to the shown
value, and an `UnboundLocalError` for the named local variable. -/
inductive GenError where
  | assertion (msg : String)
  | unreachable (value : String)
  | unboundLocal (var : String)
deriving DecidableEq, Repr

/-- The generation monad: threads the count of device-argument-selector
invocations performed so far and propagates a raised `GenError`. -/
def GenM (α : Type) : Type := Nat → Except GenError α × Nat

/-- Return a value without raising and without invoking the selector. -/
def GenM.pure (a : α) : GenM α := fun n => (Except.ok a, n)

/-- Sequencing: a raised error aborts the rest of the computation. -/
def GenM.bind (x : GenM α) (f : α → GenM β) : GenM β := fun n =>
  match x n with
  | (Except.ok a, n') => f a n'
  | (Except.error e, n') => (Except.error e, n')

/-- Raise an error, aborting the computation. -/
def GenM.throw (e : GenError) : GenM α := fun n => (Except.error e, n)

/-- Embeds a Python list comprehension with effects: evaluate `g` on each
element left to right, collecting the results; an error raised mid-list
aborts. -/
def mapListGen (g : α → GenM β) : List α → GenM (List β)
  | [] => GenM.pure []
  | a :: as =>
      GenM.bind (g a) (fun b =>
        GenM.bind (mapListGen g as) (fun bs =>
          GenM.pure (b :: bs)))

/-- A call of `get_device_param` as the source performs it inside the
definition target: the invocation is counted, and an `AssertionError` raised
by the selector aborts generation. -/
def get_device_param_call (args : List Argument) : GenM String := fun n =>
  match get_device_param args with
  | Except.ok s => (Except.ok s, n + 1)
  | Except.error e => (Except.error (GenError.assertion e), n + 1)

/-! ### The rendering collaborator -/

/-- Modelled from the spec: the signature-rendering collaborator (spec section
6; `tools.codegen.api.types.DispatcherSignature` and `CppSignatureGroup`,
outside `src/`).  For one native function it supplies the dispatcher name, the
declaration text, the pointer/cast type text, the definition header for a
given function name, the C++ return-type text, and the faithful callable
name. -/
structure RenderedSig where
  name : String
  decl : String
  ptr_type : String
  defn_of : String → String
  returns_cpp_type : String
  at_call_name : String

/-- Modelled from the spec: the return-name query of the rendering
collaborator (`tools.codegen.api.cpp.return_names`, outside `src/`): each
declared return's name when present, else the supplied fallback name. -/
def return_names (nf : NativeFunction) (fallback_name : String) : List String :=
  nf.func.returns.map (fun r => r.name.getD fallback_name)

/-! ### Argument marshaling planner (locals of `gen_unstructured_external`) -/

/-- Embeds `dispatcher_order_args = dispatcher.jit_arguments(...)` (source
line 164); the canonical dispatcher order is the order the modelled schema
already carries (spec section 4.3). -/
def dispatcher_order_args (f : ExternalBackendFunction) : List Argument :=
  f.native_function.func.args

/-- Embeds the local `tensorlist_args` (source lines 168-170): each
`TensorList` parameter bound to the generated local `l_<name>`, in dispatcher
order. -/
def tensorlist_args (f : ExternalBackendFunction) : List (Argument × String) :=
  ((dispatcher_order_args f).filter (fun a =>
      match a.type with
      | CType.list e _ => e == CType.base BaseTy.Tensor
      | _ => false)).map
    (fun a => (a, "l_" ++ a.name))

/-- Embeds the local `opt_tensors` (source lines 172-174): the optional-tensor
parameters in dispatcher order. -/
def opt_tensors (f : ExternalBackendFunction) : List Argument :=
  (dispatcher_order_args f).filter (fun a =>
    match a.type with
    | CType.optional e => e == CType.base BaseTy.Tensor
    | _ => false)

/-- Embeds the local `opt_tensor_args` (source line 175): each optional-tensor
parameter bound to its indexed slot in the shared vector. -/
def opt_tensor_args (f : ExternalBackendFunction) : List (Argument × String) :=
  (opt_tensors f).enum.map (fun p => (p.2, "xlatens_opt[" ++ toString p.1 ++ "]"))

/-- Embeds the local `tensors` (source line 177): the plain-`Tensor`
parameters in dispatcher order. -/
def tensors (f : ExternalBackendFunction) : List Argument :=
  (dispatcher_order_args f).filter (fun a => a.type == CType.base BaseTy.Tensor)

/-- Embeds the local `tensor_args` (source line 178): each plain-tensor
parameter bound to its indexed slot in the shared vector. -/
def tensor_args (f : ExternalBackendFunction) : List (Argument × String) :=
  (tensors f).enum.map (fun p => (p.2, "xlatens[" ++ toString p.1 ++ "]"))

/-- Embeds the local `annotated_tensor_indices` (source lines 179-180): the
positions, among the plain-tensor parameters, carrying a write annotation. -/
def annotated_tensor_indices (f : ExternalBackendFunction) : List Nat :=
  ((tensors f).enum.filter (fun p => p.2.is_write)).map (fun p => p.1)

/-- Embeds the local `print_args_str` (source line 182). -/
def print_args_str (f : ExternalBackendFunction) : String :=
  String.join ((tensor_args f).map (fun p =>
    " << \" " ++ p.1.name ++ "=\" << " ++ p.1.name ++ ".toString()"))

/-- Embeds the local `tensorlist_intermediates_str` (source lines 185-188). -/
def tensorlist_intermediates_str (f : ExternalBackendFunction) : String :=
  if (tensorlist_args f).length > 0 then
    String.intercalate "\n" ((tensorlist_args f).map (fun p =>
      "  auto " ++ p.2 ++ " = to_cpu(" ++ p.1.name ++ ");"))
  else ""

/-- Embeds the local `opt_tensor_intermediates_str` (source lines 190-194). -/
def opt_tensor_intermediates_str (f : ExternalBackendFunction) : String :=
  if (opt_tensor_args f).length > 0 then
    "\n  std::vector<c10::optional<at::Tensor>> xlatens_opt_tensors = \x7b"
      ++ String.intercalate ", " ((opt_tensor_args f).map (fun p => p.1.name))
      ++ "\x7d;"
      ++ "\n  auto xlatens_opt = to_cpu(xlatens_opt_tensors);"
  else ""

/-- Embeds the local `intermediates` (source lines 196-202): the tensor-list
conversion block when present, the plain-tensor vector conversion
unconditionally, then the optional-tensor conversion block when present. -/
def intermediates (f : ExternalBackendFunction) : String :=
  (if tensorlist_intermediates_str f != "" then tensorlist_intermediates_str f ++ "\n" else "")
    ++ "  std::vector<at::Tensor> xlatens_tensors = \x7b"
    ++ String.intercalate ", " ((tensor_args f).map (fun p => p.1.name))
    ++ "\x7d;"
    ++ "\n  auto xlatens = to_cpu(xlatens_tensors);"
    ++ (if opt_tensor_intermediates_str f != "" then opt_tensor_intermediates_str f else "")

/-! ### Call synthesizer -/

/-- Embeds the local `is_method` (source line 205): the schema declares no
free-function variant. -/
def is_method (f : ExternalBackendFunction) : Bool :=
  !(f.native_function.variants.contains Variant.function)

/-- Looks an argument up in one of the three binding maps (Python
`dict.get`). -/
def binding_get (m : List (Argument × String)) (a : Argument) : Option String :=
  (m.find? (fun p => p.1 == a)).map (fun p => p.2)

/-- Embeds the local `updated_bindings` (source lines 210-211): each parameter
position uses its intermediate binding when one was assigned, else its
original name. -/
def updated_bindings (f : ExternalBackendFunction) : List String :=
  (dispatcher_order_args f).map (fun a =>
    (binding_get (tensorlist_args f) a).getD
      ((binding_get (opt_tensor_args f) a).getD
        ((binding_get (tensor_args f) a).getD a.name)))

/-- Embeds the local `cpu_result_name` (source line 218). -/
def cpu_result_name : String := "x_result"

/-- The reference invocation before any result capture (source lines 219-222):
method form through the first binding, else a free call in the `at`
namespace. -/
def at_call_raw (f : ExternalBackendFunction) (sig : RenderedSig) : String :=
  if is_method f then
    (updated_bindings f).headD ""
      ++ "." ++ sig.at_call_name
      ++ "(" ++ String.intercalate ", " (updated_bindings f).tail ++ ");"
  else
    "at::" ++ sig.at_call_name
      ++ "(" ++ String.intercalate ", " (updated_bindings f) ++ ");"

/-- Embeds the local `at_call` after the capture step (source lines 224-225):
with at least one declared return the call result is captured into the fixed
temporary. -/
def at_call (f : ExternalBackendFunction) (sig : RenderedSig) : String :=
  if f.native_function.func.returns.isEmpty then at_call_raw f sig
  else "auto&& " ++ cpu_result_name ++ " = " ++ at_call_raw f sig

/-- Embeds the local `avoid_warning` (source lines 223-226). -/
def avoid_warning (f : ExternalBackendFunction) : String :=
  if f.native_function.func.returns.isEmpty then ""
  else "\n  static_cast<void>(" ++ cpu_result_name ++ "); // Avoid warnings in case not used"

/-! ### Mutation propagator -/

/-- Embeds the local `collect_mutated_tensors` (source lines 228-232). -/
def collect_mutated_tensors (f : ExternalBackendFunction) : String :=
  if (annotated_tensor_indices f).length > 0 then
    "\n  std::vector<size_t> xlatens_update_indices = \x7b"
      ++ String.intercalate ", " ((annotated_tensor_indices f).map toString)
      ++ "\x7d;"
  else ""

/-- The fixed copy-back loop text (source lines 234-239); the destination
resize line is present only as a C++ comment in the emitted text. -/
def update_tensors_loop : String :=
  "\n  for (int i : xlatens_update_indices) \x7b\n    // if (xlatens_tensors[i].sizes() != xlatens[i].sizes()) xlatens_tensors[i].resize_(xlatens[i].sizes());\n    at::_copy_from_and_resize(xlatens[i], xlatens_tensors[i]);\n  \x7d\n"

/-- Embeds the local `update_tensors` (source lines 228-239). -/
def update_tensors (f : ExternalBackendFunction) : String :=
  if (annotated_tensor_indices f).length > 0 then update_tensors_loop
  else ""

/-! ### Result wrapper inside the definition target -/

/-- A placeholder return spec for out-of-range `getD` accesses; the source
only indexes within bounds, so this value is never consulted. -/
def dummyReturn : Return :=
  { name := none, type := CType.base (BaseTy.other ""), is_write := false }

/-- Embeds the local `ret_names` (source line 243). -/
def ret_names (f : ExternalBackendFunction) : List String :=
  return_names f.native_function cpu_result_name

/-- One component of the multi-return tuple (source lines 249-253), given the
device argument `d` the selector produced for it. -/
def return_component (f : ExternalBackendFunction) (d : String) (i : Nat) : String :=
  xla_tensor_creation_api ((ret_names f).getD i "")
    ((f.native_function.func.returns).getD i dummyReturn)
    d
    ("std::get<" ++ toString i ++ ">(" ++ cpu_result_name ++ ")")

/-- Embeds the local `returns` (source lines 241-254): empty for a
zero-return schema; for one return, one selector invocation then the result
wrapper; for several returns, one selector invocation per component, then the
tuple constructor over the per-component results in declared order. -/
def returns_str (f : ExternalBackendFunction) (sig : RenderedSig) : GenM String :=
  if f.native_function.func.returns.isEmpty then GenM.pure ""
  else if f.native_function.func.returns.length == 1 then
    GenM.bind (get_device_param_call (dispatcher_order_args f)) (fun d =>
      GenM.pure (xla_tensor_creation_api ((ret_names f).headD "")
        ((f.native_function.func.returns).headD dummyReturn) d cpu_result_name))
  else
    GenM.bind
      (mapListGen
        (fun i =>
          GenM.bind (get_device_param_call (dispatcher_order_args f)) (fun d =>
            GenM.pure (return_component f d i)))
        (List.range f.native_function.func.returns.length))
      (fun return_args =>
        GenM.pure (sig.returns_cpp_type ++ "(" ++ String.intercalate ", " return_args ++ ")"))

/-- Embeds the local `return_str` (source lines 255-257). -/
def return_str (f : ExternalBackendFunction) (sig : RenderedSig) : GenM String :=
  GenM.bind (returns_str f sig) (fun r =>
    if r == "" then GenM.pure ""
    else GenM.pure ("\n  return " ++ r ++ ";"))

/-! ### Definition body assembly -/

/-- The fixed prologue of a definition body (source lines 259-264): the
definition header, the tracing/counter/logging instrumentation, and the
marshaling intermediates, up to the indentation of the reference call. -/
def prologue (f : ExternalBackendFunction) (sig : RenderedSig) : String :=
  sig.defn_of ("AtenXlaTypeDefault::" ++ sig.name)
    ++ " \x7b\n  XLA_FN_TRACK(3);\n  XLA_COUNTER(\"aten::" ++ sig.name ++ "\", 1);\n  TF_VLOG(3) << \"XLA "
    ++ sig.name ++ " :\"" ++ print_args_str f ++ ";\n"
    ++ intermediates f
    ++ "\n  "

/-- The assembled definition body (source lines 259-268), given the already
computed `return_str` text `rs`: the call, the mutation copy-back, the
unused-result suppression and the return epilogue follow the prologue in the
source's fixed order. -/
def assemble (f : ExternalBackendFunction) (sig : RenderedSig) (rs : String) : String :=
  prologue f sig
    ++ at_call f sig
    ++ collect_mutated_tensors f
    ++ update_tensors f
    ++ avoid_warning f
    ++ rs
    ++ "\n\x7d\n\n"

/-- The definition target's body (source lines 162-268): the `return_str`
computation (which may invoke the selector and may raise) followed by the
purely textual assembly. -/
def definition_body (f : ExternalBackendFunction) (sig : RenderedSig) : GenM String :=
  GenM.bind (return_str f sig) (fun rs => GenM.pure (assemble f sig rs))

/-! ### Emission driver -/

/-- The target kinds the generator is stamped with (`tools.codegen.utils.Target`,
outside `src/`, restricted by the dataclass annotation to three members);
`other` stands for any further member of the full enum reaching the generator
at run time. -/
inductive Target where
  | NAMESPACED_DEFINITION
  | NAMESPACED_DECLARATION
  | REGISTRATION
  | other (shown : String)
deriving DecidableEq, Repr

/-- The run-time value the entry point is applied to: the
`ExternalBackendFunctionsGroup` / `ExternalBackendFunction` union of the
annotation, or (`other`) any value outside it reaching the call at run
time. -/
inductive GenInput where
  | group (grp : ExternalBackendFunctionsGroup)
  | fn (f : ExternalBackendFunction)
  | other (shown : String)
deriving Repr

/-- The functional-sibling registration skip (part of source line 154):
whether the enclosing input is a group whose functional variant has backend
metadata. -/
def registration_functional_skip : GenInput → Bool
  | GenInput.group grp => grp.functional.metadata.isSome
  | _ => false

/-- The one-line registration payload (source lines 156-157). -/
def registration_line (f : ExternalBackendFunction) (sig : RenderedSig) : String :=
  "  m.impl(\"" ++ f.native_function.func.name ++ "\", static_cast<"
    ++ sig.ptr_type ++ ">(&AtenXlaTypeDefault::" ++ sig.name ++ "));\n"

/-- Embeds `gen_unstructured_external` (source lines 120-268) for one
operation: `none` when the eligibility filter rejects it; otherwise the
declaration line, the registration line (or empty string when skipped), the
definition body, or — for a target outside the three declared kinds — the
`assert_never` unreachable-state assertion (source lines 159-160). -/
def gen_unstructured (target : Target) (g : GenInput) (sig : RenderedSig)
    (f : ExternalBackendFunction) : GenM (Option String) :=
  if requires_backend_wrapper f = false then GenM.pure none
  else
    match target with
    | Target.NAMESPACED_DECLARATION =>
        GenM.pure (some ("  static " ++ sig.decl ++ ";"))
    | Target.REGISTRATION =>
        if f.metadata.isSome || registration_functional_skip g then GenM.pure (some "")
        else GenM.pure (some (registration_line f sig))
    | Target.NAMESPACED_DEFINITION =>
        GenM.bind (definition_body f sig) (fun b => GenM.pure (some b))
    | Target.other shown => GenM.throw (GenError.unreachable shown)

/-- Embeds `GenExternalAtenFallback.__call__` (source lines 118-280): a
structured group raises the fatal `AssertionError("Not Implemented")` (source
lines 269-272); a non-structured group maps the per-operation generator over
its members, dropping `none` contributions (`mapMaybe`, source line 274); a
single function yields its generated text unless it is `None` or the empty
string (source lines 275-278); any other value reaches `assert_never(f)` with
the local `f` unassigned, so the source raises `UnboundLocalError` for `f`
there (source lines 279-280). -/
def gen_call (target : Target) (env : NativeFunction → RenderedSig)
    (g : GenInput) : GenM (List String) :=
  match g with
  | GenInput.group grp =>
      if grp.structured then GenM.throw (GenError.assertion "Not Implemented")
      else
        GenM.bind
          (mapListGen (fun f => gen_unstructured target g (env f.native_function) f)
            grp.functions)
          (fun outs => GenM.pure (outs.filterMap id))
  | GenInput.fn f =>
      GenM.bind (gen_unstructured target g (env f.native_function) f) (fun x =>
        GenM.pure (match x with
          | some s => if s = "" then [] else [s]
          | none => []))
  | GenInput.other _ => GenM.throw (GenError.unboundLocal "f")

/-! ## Helper lemmas -/

/-- The head of a filtered list is the first element satisfying the
predicate. -/
theorem filter_head?_eq_find? (p : α → Bool) (l : List α) :
    (l.filter p).head? = l.find? p := by
  induction l with
  | nil => rfl
  | cons a l ih =>
      by_cases h : p a = true <;>
        simp [List.filter_cons, List.find?_cons, h, ih]

/-- Evaluating the effectful list map when every element returns `Except.ok`
with a value and a selector-invocation count depending only on the element. -/
theorem mapListGen_ok (g : α → GenM β) (h : α → β) (k : α → Nat) (l : List α)
    (H : ∀ a ∈ l, ∀ c, g a c = (Except.ok (h a), c + k a)) :
    ∀ c, mapListGen g l c = (Except.ok (l.map h), c + (l.map k).sum) := by
  induction l with
  | nil => intro c; simp [mapListGen, GenM.pure]
  | cons a l ih =>
      intro c
      have ha := H a (by simp) c
      have ihl := ih (fun b hb c' => H b (by simp [hb]) c')
      simp [mapListGen, GenM.bind, GenM.pure, ha, ihl (c + k a), Nat.add_assoc]

/-- Summing the constant one over a list counts its elements. -/
theorem sum_map_one (l : List α) : (l.map (fun _ => (1 : Nat))).sum = l.length := by
  induction l with
  | nil => rfl
  | cons a l ih => simp [ih, Nat.add_comm]

/-- The accumulator of `String.intercalate.go` only ever grows. -/
theorem intercalate_go_length (sep : String) :
    ∀ (xs : List String) (acc : String),
      acc.length ≤ (String.intercalate.go acc sep xs).length := by
  intro xs
  induction xs with
  | nil => intro acc; simp [String.intercalate.go]
  | cons a as ih =>
      intro acc
      have h1 : acc.length ≤ (acc ++ sep ++ a).length := by
        simp [String.length_append]; omega
      exact Nat.le_trans h1 (by simpa [String.intercalate.go] using ih (acc ++ sep ++ a))

/-- Interposing a separator into a nonempty list keeps the whole first
element. -/
theorem intercalate_cons_length (sep x : String) (xs : List String) :
    x.length ≤ (String.intercalate sep (x :: xs)).length := by
  simpa [String.intercalate] using intercalate_go_length sep xs x

/-! ## Claim theorems -/

/-- Spec-side restatement of the selector's precedence (spec section 4.2):
the first non-mutating `Tensor`/`OptionalTensor`, else the first tensor-like
parameter, else the first `Device`/`OptionalDevice` parameter, else the fatal
configuration error. -/
def device_param_spec (args : List Argument) : Except String String :=
  match args.find? (fun a =>
      (a.type == CType.base BaseTy.Tensor
        || a.type == CType.optional (CType.base BaseTy.Tensor))
      && !a.is_write) with
  | some a => Except.ok a.name
  | none =>
    match args.find? (fun a => a.type.is_tensor_like) with
    | some a => Except.ok a.name
    | none =>
      match args.find? (fun a =>
          a.type == CType.base BaseTy.Device
            || a.type == CType.optional (CType.base BaseTy.Device)) with
      | some a => Except.ok a.name
      | none => Except.error "Need a tensor-like or device argument in order to determine the output device"

/-- C1: the device-argument selector is a deterministic function of the
ordered parameter list following the strict precedence first non-mutating
Tensor/OptionalTensor, else first tensor-like, else first
Device/OptionalDevice, else fatal configuration error; in particular, with
one mutating and one non-mutating Tensor parameter it picks the non-mutating
one in either relative order. -/
theorem device_selector_precedence :
    (∀ args : List Argument, get_device_param args = device_param_spec args) ∧
    (∀ x y : Argument,
      x.type = CType.base BaseTy.Tensor → x.is_write = false →
      y.type = CType.base BaseTy.Tensor → y.is_write = true →
      get_device_param [x, y] = Except.ok x.name ∧
      get_device_param [y, x] = Except.ok x.name) := by
  constructor
  · intro args
    have e1 := filter_head?_eq_find? (fun a =>
        (a.type == CType.base BaseTy.Tensor
          || a.type == CType.optional (CType.base BaseTy.Tensor))
        && !a.is_write) args
    have e2 := filter_head?_eq_find? (fun a => a.type.is_tensor_like) args
    have e3 := filter_head?_eq_find? (fun a =>
        a.type == CType.base BaseTy.Device
          || a.type == CType.optional (CType.base BaseTy.Device)) args
    unfold get_device_param device_param_spec
    cases h1 : args.filter (fun a =>
        (a.type == CType.base BaseTy.Tensor
          || a.type == CType.optional (CType.base BaseTy.Tensor))
        && !a.is_write) with
    | cons a1 t1 => rw [h1] at e1; simp [h1, ← e1]
    | nil =>
      rw [h1] at e1
      cases h2 : args.filter (fun a => a.type.is_tensor_like) with
      | cons a2 t2 => rw [h2] at e2; simp [h1, h2, ← e1, ← e2]
      | nil =>
        rw [h2] at e2
        cases h3 : args.filter (fun a =>
            a.type == CType.base BaseTy.Device
              || a.type == CType.optional (CType.base BaseTy.Device)) with
        | cons a3 t3 => rw [h3] at e3; simp [h1, h2, h3, ← e1, ← e2, ← e3]
        | nil => rw [h3] at e3; simp [h1, h2, h3, ← e1, ← e2, ← e3]
  · intro x y hx hxw hy hyw
    refine ⟨?_, ?_⟩ <;>
      simp [get_device_param, List.filter_cons, hx, hxw, hy, hyw]

/-- Witness fixture: a non-mutating plain-`Tensor` parameter named `self`. -/
def argSelf : Argument := { name := "self", type := CType.base BaseTy.Tensor, annot := none }

/-- Witness fixture: a mutating plain-`Tensor` parameter named `out`. -/
def argOut : Argument :=
  { name := "out", type := CType.base BaseTy.Tensor, annot := some { is_write := true } }

/-- Witness for C1: on the spec's competing-candidate list of one mutating and
one non-mutating tensor, the selector picks the non-mutating `self` in either
order. -/
theorem device_selector_precedence_witness :
    get_device_param [argSelf, argOut] = Except.ok "self" ∧
    get_device_param [argOut, argSelf] = Except.ok "self" :=
  device_selector_precedence.2 argSelf argOut rfl rfl rfl rfl

/-- Spec-side predicate: the qualified name matches some denylist pattern. -/
def denied (f : ExternalBackendFunction) : Bool :=
  _FN_DENYLIST_REGEX.any (fun frx => reMatch frx f.native_function.func.name.data)

/-- Spec-side predicate: none of the operation's dispatch keys is generic. -/
def requires_lowering (f : ExternalBackendFunction) : Bool :=
  !(f.native_function.dispatch.any (fun k => is_generic_dispatch_key k))

/-- Spec-side predicate: backend metadata is present. -/
def has_lowering (f : ExternalBackendFunction) : Bool := f.metadata.isSome

/-- C2: the eligibility filter is the pure predicate
`!denied && (requires_lowering || has_lowering)`, and a denied operation is
ineligible — its per-operation generator yields `none` and the entry point
yields no text — for every target, whatever the metadata. -/
theorem eligibility_formula :
    (∀ f, requires_backend_wrapper f
      = (!denied f && (requires_lowering f || has_lowering f))) ∧
    (∀ f, denied f = true →
      requires_backend_wrapper f = false ∧
      (∀ target g sig c, gen_unstructured target g sig f c = (Except.ok none, c)) ∧
      (∀ target env c, gen_call target env (GenInput.fn f) c = (Except.ok [], c))) := by
  constructor
  · intro f; rfl
  · intro f hd
    have hreq : requires_backend_wrapper f = false := by
      simp [requires_backend_wrapper, denied] at *
      simp [hd]
    refine ⟨hreq, ?_, ?_⟩
    · intro target g sig c
      simp [gen_unstructured, hreq, GenM.pure]
    · intro target env c
      simp [gen_call, gen_unstructured, hreq, GenM.bind, GenM.pure]

/-- Witness fixture: a denylisted operation (its name matches the first
denylist pattern) that nevertheless has backend metadata and a non-generic
dispatch key. -/
def cudnnF : ExternalBackendFunction :=
  { native_function :=
      { func := { name := "cudnn_convolution", args := [argSelf], returns := [] },
        dispatch := [{ name := "CUDA", generic := false }],
        variants := [Variant.function] },
    metadata := some "cudnn_convolution" }

/-- Witness fixture: a rendering collaborator that answers every query with
fixed texts derived from the dispatcher name. -/
def envSimple : NativeFunction → RenderedSig := fun nf =>
  { name := nf.func.name,
    decl := "decl_of_" ++ nf.func.name,
    ptr_type := "ptr_of_" ++ nf.func.name,
    defn_of := fun n => "defn_of " ++ n,
    returns_cpp_type := "rettype_of_" ++ nf.func.name,
    at_call_name := nf.func.name }

/-- Witness for C2: the denylisted `cudnn_convolution` is ineligible although
its metadata is present, and all three targets emit nothing for it. -/
theorem eligibility_formula_witness :
    denied cudnnF = true ∧
    has_lowering cudnnF = true ∧
    requires_backend_wrapper cudnnF = false ∧
    gen_call Target.NAMESPACED_DECLARATION envSimple (GenInput.fn cudnnF) 0 = (Except.ok [], 0) ∧
    gen_call Target.REGISTRATION envSimple (GenInput.fn cudnnF) 0 = (Except.ok [], 0) ∧
    gen_call Target.NAMESPACED_DEFINITION envSimple (GenInput.fn cudnnF) 0 = (Except.ok [], 0) := by
  have h := eligibility_formula.2 cudnnF (by decide)
  exact ⟨by decide, by decide, h.1,
    h.2.2 Target.NAMESPACED_DECLARATION envSimple 0,
    h.2.2 Target.REGISTRATION envSimple 0,
    h.2.2 Target.NAMESPACED_DEFINITION envSimple 0⟩

/-- C3: the copy-back machinery targets exactly the plain-tensor positions
carrying a write annotation — a position is in the update-index list iff the
plain-tensor parameter at that position is annotated; when any exist, the
emitted index vector lists exactly those positions and the loop is the fixed
copy-back text (whose only executable statement is the copy: the destination
resize appears only inside a C++ comment); when none exist, nothing is
emitted. -/
theorem mutation_copy_back : ∀ f : ExternalBackendFunction,
    (∀ i : Nat, i ∈ annotated_tensor_indices f ↔
      ∃ a, (tensors f)[i]? = some a ∧ a.is_write = true) ∧
    (annotated_tensor_indices f ≠ [] →
      collect_mutated_tensors f =
        "\n  std::vector<size_t> xlatens_update_indices = \x7b"
          ++ String.intercalate ", " ((annotated_tensor_indices f).map toString)
          ++ "\x7d;" ∧
      update_tensors f = update_tensors_loop) ∧
    (annotated_tensor_indices f = [] →
      collect_mutated_tensors f = "" ∧ update_tensors f = "") := by
  intro f
  refine ⟨?_, ?_, ?_⟩
  · intro i
    constructor
    · intro hi
      rcases List.mem_map.mp hi with ⟨x, hx, hfst⟩
      rcases List.mem_filter.mp hx with ⟨hmem, hw⟩
      refine ⟨x.2, ?_, hw⟩
      have : (x.1, x.2) ∈ (tensors f).enum := by simpa using hmem
      rw [← hfst]
      simpa using List.mk_mem_enum_iff_getElem?.mp this
    · rintro ⟨a, hget, hw⟩
      apply List.mem_map.mpr
      refine ⟨(i, a), List.mem_filter.mpr ⟨?_, hw⟩, rfl⟩
      exact List.mk_mem_enum_iff_getElem?.mpr (by simp [hget])
  · intro h
    have hpos : 0 < (annotated_tensor_indices f).length := List.length_pos.mpr h
    constructor
    · simp [collect_mutated_tensors, hpos]
    · simp [update_tensors, hpos]
  · intro h
    constructor
    · simp [collect_mutated_tensors, h]
    · simp [update_tensors, h]

/-- Witness fixture: the spec's round-trip operation
`foo(Tensor self, Tensor! out) -> Tensor`. -/
def fooF : ExternalBackendFunction :=
  { native_function :=
      { func :=
          { name := "foo",
            args := [argSelf, argOut],
            returns := [{ name := none, type := CType.base BaseTy.Tensor, is_write := false }] },
        dispatch := [{ name := "CPU", generic := false }],
        variants := [Variant.function] },
    metadata := none }

/-- Witness for C3 at the round-trip operation `foo`: position 1 (the
annotated `out`) and only it is copied back, with the fixed loop text. -/
theorem mutation_copy_back_witness :
    (1 ∈ annotated_tensor_indices fooF ↔
      ∃ a, (tensors fooF)[1]? = some a ∧ a.is_write = true) ∧
    collect_mutated_tensors fooF =
      "\n  std::vector<size_t> xlatens_update_indices = \x7b"
        ++ String.intercalate ", " ((annotated_tensor_indices fooF).map toString)
        ++ "\x7d;" ∧
    update_tensors fooF = update_tensors_loop :=
  ⟨(mutation_copy_back fooF).1 1, (mutation_copy_back fooF).2.1 (by decide)⟩

/-- Spec-side predicate (spec section 4.6): a return spec requires wrapping
iff its type is a bare non-reference `Tensor`, or a list of `Tensor`. -/
def requires_wrapping (r : Return) : Bool :=
  (r.type == CType.base BaseTy.Tensor && !r.is_write)
  || (match r.type with
      | CType.list e _ => e == CType.base BaseTy.Tensor
      | _ => false)

/-- Spec-side text of the device-creation wrapping call over the captured
reference-device result and the selected device argument. -/
def device_wrap_call (cpu_result device_param : String) : String :=
  "to_device_opt(" ++ cpu_result ++ ", get_device_arg(" ++ device_param ++ "))"

/-- Running `returns_str` on a zero-return schema: empty text, no selector
invocation. -/
theorem returns_str_nil (f : ExternalBackendFunction) (sig : RenderedSig)
    (h : f.native_function.func.returns = []) (c : Nat) :
    returns_str f sig c = (Except.ok "", c) := by
  simp [returns_str, h, GenM.pure]

/-- Running `returns_str` on a one-return schema with a successful selector:
the wrapped single component, one selector invocation. -/
theorem returns_str_single (f : ExternalBackendFunction) (sig : RenderedSig) (r0 : Return)
    (h : f.native_function.func.returns = [r0]) (d : String)
    (hd : get_device_param (dispatcher_order_args f) = Except.ok d) (c : Nat) :
    returns_str f sig c
      = (Except.ok (xla_tensor_creation_api ((ret_names f).headD "") r0 d cpu_result_name),
         c + 1) := by
  simp [returns_str, h, GenM.bind, GenM.pure, get_device_param_call, hd]

/-- Running `returns_str` on a schema with two or more returns and a
successful selector: the tuple constructor over the per-component results,
one selector invocation per component. -/
theorem returns_str_multi (f : ExternalBackendFunction) (sig : RenderedSig)
    (hlen : 2 ≤ f.native_function.func.returns.length) (d : String)
    (hd : get_device_param (dispatcher_order_args f) = Except.ok d) (c : Nat) :
    returns_str f sig c =
      (Except.ok (sig.returns_cpp_type ++ "("
        ++ String.intercalate ", "
          ((List.range f.native_function.func.returns.length).map (return_component f d))
        ++ ")"),
       c + f.native_function.func.returns.length) := by
  have hne : f.native_function.func.returns ≠ [] := by
    intro h; rw [h] at hlen; simp at hlen
  have hE : f.native_function.func.returns.isEmpty = false := by
    cases h : f.native_function.func.returns with
    | nil => exact absurd h hne
    | cons a t => rfl
  have hL : (f.native_function.func.returns.length == 1) = false :=
    beq_eq_false_iff_ne.mpr (by omega)
  have hstep : ∀ i ∈ List.range f.native_function.func.returns.length, ∀ c' : Nat,
      (GenM.bind (get_device_param_call (dispatcher_order_args f))
        (fun d' => GenM.pure (return_component f d' i))) c'
        = (Except.ok (return_component f d i), c' + 1) := by
    intro i _ c'
    simp [GenM.bind, GenM.pure, get_device_param_call, hd]
  have hmap := mapListGen_ok _ (return_component f d) (fun _ => 1)
    (List.range f.native_function.func.returns.length) hstep c
  simp [returns_str, hE, hL, GenM.bind, GenM.pure, hmap, sum_map_one, List.length_range]

/-- Running `returns_str` with at least one return when the selector raises:
the fatal error propagates after the first — counted — invocation. -/
theorem returns_str_selector_error (f : ExternalBackendFunction) (sig : RenderedSig)
    (e : String) (hne : f.native_function.func.returns ≠ [])
    (he : get_device_param (dispatcher_order_args f) = Except.error e) (c : Nat) :
    returns_str f sig c = (Except.error (GenError.assertion e), c + 1) := by
  rcases hr : f.native_function.func.returns with _ | ⟨r0, rs⟩
  · exact absurd hr hne
  · rcases rs with _ | ⟨r1, rs2⟩ <;>
      simp [returns_str, hr, GenM.bind, GenM.pure, get_device_param_call, he,
        List.range_succ_eq_map, mapListGen]

/-- The definition target, given the text and count `returns_str` produced:
the body is the assembly over the return epilogue derived from that text. -/
theorem gen_definition_of_returns_str (f : ExternalBackendFunction) (g : GenInput)
    (sig : RenderedSig) (c : Nat) (r : String) (c' : Nat)
    (helig : requires_backend_wrapper f = true)
    (h : returns_str f sig c = (Except.ok r, c')) :
    gen_unstructured Target.NAMESPACED_DEFINITION g sig f c
      = (Except.ok (some (assemble f sig (if r = "" then "" else "\n  return " ++ r ++ ";"))),
         c') := by
  simp [gen_unstructured, helig, definition_body, return_str, GenM.bind, h]
  by_cases hrr : r = "" <;> simp [hrr, GenM.pure]

/-- The definition target when `returns_str` raises: the error propagates. -/
theorem gen_definition_of_returns_str_error (f : ExternalBackendFunction) (g : GenInput)
    (sig : RenderedSig) (c : Nat) (e : GenError) (c' : Nat)
    (helig : requires_backend_wrapper f = true)
    (h : returns_str f sig c = (Except.error e, c')) :
    gen_unstructured Target.NAMESPACED_DEFINITION g sig f c = (Except.error e, c') := by
  simp [gen_unstructured, helig, definition_body, return_str, GenM.bind, h]

/-- C4: the result wrapper emits the device-creation wrapping call exactly for
bare non-reference `Tensor` returns and `Tensor`-list returns and passes every
other return through unmodified; a multi-return operation's text is the tuple
constructor over the per-component results, each evaluated independently by
the same rule, in declared order. -/
theorem result_wrapper_rule :
    (∀ (rn : String) (r : Return) (dpn crn : String),
      xla_tensor_creation_api rn r dpn crn =
        if requires_wrapping r then device_wrap_call crn dpn else rn) ∧
    (∀ (f : ExternalBackendFunction) (sig : RenderedSig) (d : String) (c : Nat),
      2 ≤ f.native_function.func.returns.length →
      get_device_param (dispatcher_order_args f) = Except.ok d →
      returns_str f sig c =
        (Except.ok (sig.returns_cpp_type ++ "("
          ++ String.intercalate ", "
            ((List.range f.native_function.func.returns.length).map (return_component f d))
          ++ ")"),
         c + f.native_function.func.returns.length)) := by
  constructor
  · intro rn r dpn crn
    unfold xla_tensor_creation_api requires_wrapping device_wrap_call
    cases hA : (r.type == CType.base BaseTy.Tensor && !r.is_write) <;>
      cases hty : r.type <;> simp [hA, hty]
  · intro f sig d c hlen hd
    exact returns_str_multi f sig hlen d hd c

/-- Witness fixture: an operation with two plain non-reference `Tensor`
returns. -/
def twoRetF : ExternalBackendFunction :=
  { native_function :=
      { func :=
          { name := "twor",
            args := [argSelf],
            returns :=
              [{ name := some "out0", type := CType.base BaseTy.Tensor, is_write := false },
               { name := some "out1", type := CType.base BaseTy.Tensor, is_write := false }] },
        dispatch := [{ name := "CPU", generic := false }],
        variants := [Variant.function] },
    metadata := none }

/-- Witness for C4: a non-reference `Tensor` return is wrapped, a reference
return is passed through, and the two-return fixture produces the tuple of
independently wrapped components with two selector invocations. -/
theorem result_wrapper_rule_witness :
    xla_tensor_creation_api "r0"
        { name := some "r0", type := CType.base BaseTy.Tensor, is_write := false }
        "self" "x_result"
      = "to_device_opt(x_result, get_device_arg(self))" ∧
    xla_tensor_creation_api "r1"
        { name := some "r1", type := CType.base BaseTy.Tensor, is_write := true }
        "self" "x_result"
      = "r1" ∧
    returns_str twoRetF (envSimple twoRetF.native_function) 0
      = (Except.ok "rettype_of_twor(to_device_opt(std::get<0>(x_result), get_device_arg(self)), to_device_opt(std::get<1>(x_result), get_device_arg(self)))", 2) :=
  ⟨(result_wrapper_rule.1 "r0" _ "self" "x_result").trans rfl,
   (result_wrapper_rule.1 "r1" _ "self" "x_result").trans rfl,
   (result_wrapper_rule.2 twoRetF (envSimple twoRetF.native_function) "self" 0
      (by decide) rfl).trans rfl⟩

/-- C5: for an eligible operation under the registration target, the output
is the empty string exactly when the operation's own backend metadata is
present or the enclosing family's functional variant has metadata; otherwise
it is the single (never empty) registration line binding the qualified name to
the generated symbol. -/
theorem registration_skip_rule :
    ∀ (f : ExternalBackendFunction) (g : GenInput) (sig : RenderedSig),
      requires_backend_wrapper f = true →
      ((∀ c, gen_unstructured Target.REGISTRATION g sig f c = (Except.ok (some ""), c)) ↔
        (f.metadata.isSome = true ∨ registration_functional_skip g = true)) ∧
      (f.metadata.isSome = false → registration_functional_skip g = false →
        (∀ c, gen_unstructured Target.REGISTRATION g sig f c =
          (Except.ok (some (registration_line f sig)), c)) ∧
        registration_line f sig ≠ "") := by
  intro f g sig helig
  have h10 : ("  m.impl(\"" : String).length = 10 := rfl
  have hline : registration_line f sig ≠ "" := by
    intro h
    have hlen := congrArg String.length h
    simp [registration_line, String.length_append, h10] at hlen
  constructor
  · constructor
    · intro hall
      by_contra hcond
      push_neg at hcond
      obtain ⟨h1, h2⟩ := hcond
      have h1' : f.metadata.isSome = false := by simpa using h1
      have h2' : registration_functional_skip g = false := by simpa using h2
      have h0 := hall 0
      simp [gen_unstructured, helig, h1', h2', GenM.pure] at h0
      exact hline h0
    · intro hcond c
      rcases hcond with h | h <;>
        simp [gen_unstructured, helig, h, GenM.pure]
  · intro h1 h2
    refine ⟨fun c => ?_, hline⟩
    simp [gen_unstructured, helig, h1, h2, GenM.pure]

/-- Witness fixture: an eligible operation whose backend metadata is
present. -/
def metaF : ExternalBackendFunction :=
  { native_function :=
      { func := { name := "mymeta", args := [argSelf], returns := [] },
        dispatch := [{ name := "CPU", generic := false }],
        variants := [Variant.function] },
    metadata := some "mymeta_kernel" }

/-- Witness fixture: a non-structured family whose functional variant has
metadata while the member `fooF` does not. -/
def grpFuncMeta : ExternalBackendFunctionsGroup :=
  { functional := metaF, inplace := none, out := some fooF, structured := false }

/-- Witness for C5: an own-metadata operation and a functional-sibling
metadata member register nothing, while a metadata-free standalone operation
yields the one-line registration. -/
theorem registration_skip_rule_witness :
    gen_unstructured Target.REGISTRATION (GenInput.fn metaF)
        (envSimple metaF.native_function) metaF 0 = (Except.ok (some ""), 0) ∧
    gen_unstructured Target.REGISTRATION (GenInput.group grpFuncMeta)
        (envSimple fooF.native_function) fooF 0 = (Except.ok (some ""), 0) ∧
    gen_unstructured Target.REGISTRATION (GenInput.fn fooF)
        (envSimple fooF.native_function) fooF 0
      = (Except.ok (some (registration_line fooF (envSimple fooF.native_function))), 0) :=
  ⟨((registration_skip_rule metaF (GenInput.fn metaF)
      (envSimple metaF.native_function) rfl).1.mpr (Or.inl rfl)) 0,
   ((registration_skip_rule fooF (GenInput.group grpFuncMeta)
      (envSimple fooF.native_function) rfl).1.mpr (Or.inr rfl)) 0,
   ((registration_skip_rule fooF (GenInput.fn fooF)
      (envSimple fooF.native_function) rfl).2 rfl rfl).1 0⟩

/-- Witness fixture: an eligible operation with zero returns and neither a
tensor-like nor a Device-typed parameter. -/
def noRetF : ExternalBackendFunction :=
  { native_function :=
      { func := { name := "noop",
                  args := [{ name := "flag", type := CType.base (BaseTy.other "bool"), annot := none }],
                  returns := [] },
        dispatch := [{ name := "CPU", generic := false }],
        variants := [Variant.function] },
    metadata := none }

set_option maxRecDepth 8192 in
/-- Counterexample to C6: the eligible zero-return operation `noop` has no
tensor-like and no Device parameter, yet its definition generates successfully
— no fatal configuration error, and the selector-invocation count stays at
zero; and the two-return operation `twor` invokes the selector twice, not
once. -/
theorem device_selector_once_counterexample :
    requires_backend_wrapper noRetF = true ∧
    (noRetF.native_function.func.args.filter (fun a => a.type.is_tensor_like)) = [] ∧
    (noRetF.native_function.func.args.filter (fun a =>
        a.type == CType.base BaseTy.Device
          || a.type == CType.optional (CType.base BaseTy.Device))) = [] ∧
    noRetF.native_function.func.returns = [] ∧
    gen_call Target.NAMESPACED_DEFINITION envSimple (GenInput.fn noRetF) 0
      = (Except.ok ["defn_of AtenXlaTypeDefault::noop \x7b\n  XLA_FN_TRACK(3);\n  XLA_COUNTER(\"aten::noop\", 1);\n  TF_VLOG(3) << \"XLA noop :\";\n  std::vector<at::Tensor> xlatens_tensors = \x7b\x7d;\n  auto xlatens = to_cpu(xlatens_tensors);\n  at::noop(flag);\n\x7d\n\n"], 0) ∧
    twoRetF.native_function.func.returns.length = 2 ∧
    gen_call Target.NAMESPACED_DEFINITION envSimple (GenInput.fn twoRetF) 0
      = (Except.ok ["defn_of AtenXlaTypeDefault::twor \x7b\n  XLA_FN_TRACK(3);\n  XLA_COUNTER(\"aten::twor\", 1);\n  TF_VLOG(3) << \"XLA twor :\" << \" self=\" << self.toString();\n  std::vector<at::Tensor> xlatens_tensors = \x7bself\x7d;\n  auto xlatens = to_cpu(xlatens_tensors);\n  auto&& x_result = at::twor(xlatens[0]);\n  static_cast<void>(x_result); // Avoid warnings in case not used\n  return rettype_of_twor(to_device_opt(std::get<0>(x_result), get_device_arg(self)), to_device_opt(std::get<1>(x_result), get_device_arg(self)));\n\x7d\n\n"], 2) :=
  ⟨rfl, rfl, rfl, rfl, rfl, rfl, rfl⟩

/-- C6 (amended): for an eligible operation, definition generation invokes the
device-argument selector once per declared return — zero times for zero
returns, in which case generation succeeds even without any tensor-like or
Device parameter; once per component for one or more returns when the
selector succeeds; and when the selector fails on an operation with at least
one return, the fatal configuration error aborts generation after the first
invocation. -/
theorem device_selector_call_count :
    ∀ (f : ExternalBackendFunction) (g : GenInput) (sig : RenderedSig) (c : Nat),
      requires_backend_wrapper f = true →
      (f.native_function.func.returns = [] →
        gen_unstructured Target.NAMESPACED_DEFINITION g sig f c =
          (Except.ok (some (assemble f sig "")), c)) ∧
      (∀ d, get_device_param (dispatcher_order_args f) = Except.ok d →
        ∃ s, gen_unstructured Target.NAMESPACED_DEFINITION g sig f c =
          (Except.ok (some s), c + f.native_function.func.returns.length)) ∧
      (∀ e, f.native_function.func.returns ≠ [] →
        get_device_param (dispatcher_order_args f) = Except.error e →
        gen_unstructured Target.NAMESPACED_DEFINITION g sig f c =
          (Except.error (GenError.assertion e), c + 1)) := by
  intro f g sig c helig
  refine ⟨?_, ?_, ?_⟩
  · intro h
    have hb := gen_definition_of_returns_str f g sig c "" c helig (returns_str_nil f sig h c)
    simpa using hb
  · intro d hd
    rcases hr : f.native_function.func.returns with _ | ⟨r0, rs⟩
    · refine ⟨assemble f sig "", ?_⟩
      have hb := gen_definition_of_returns_str f g sig c "" c helig (returns_str_nil f sig hr c)
      simpa using hb
    · rcases rs with _ | ⟨r1, rs2⟩
      · exact ⟨_, gen_definition_of_returns_str f g sig c _ (c + 1) helig
          (returns_str_single f sig r0 hr d hd c)⟩
      · have hlen : 2 ≤ f.native_function.func.returns.length := by
          rw [hr]; simp only [List.length_cons]; omega
        have hb := gen_definition_of_returns_str f g sig c _
          (c + f.native_function.func.returns.length) helig
          (returns_str_multi f sig hlen d hd c)
        rw [hr] at hb
        exact ⟨_, hb⟩
  · intro e hne he
    exact gen_definition_of_returns_str_error f g sig c (GenError.assertion e) (c + 1) helig
      (returns_str_selector_error f sig e hne he c)

/-- Witness for C6 (amended): `noop` generates with zero selector invocations;
`twor` generates with exactly two. -/
theorem device_selector_call_count_witness :
    gen_unstructured Target.NAMESPACED_DEFINITION (GenInput.fn noRetF)
        (envSimple noRetF.native_function) noRetF 0
      = (Except.ok (some (assemble noRetF (envSimple noRetF.native_function) "")), 0) ∧
    (∃ s, gen_unstructured Target.NAMESPACED_DEFINITION (GenInput.fn twoRetF)
        (envSimple twoRetF.native_function) twoRetF 0
      = (Except.ok (some s), 0 + twoRetF.native_function.func.returns.length)) :=
  ⟨(device_selector_call_count noRetF (GenInput.fn noRetF)
      (envSimple noRetF.native_function) 0 rfl).1 rfl,
   (device_selector_call_count twoRetF (GenInput.fn twoRetF)
      (envSimple twoRetF.native_function) 0 rfl).2.1 "self" rfl⟩

/-- A string with positive length is not the empty string. -/
theorem ne_empty_of_length_pos {s : String} (h : 0 < s.length) : s ≠ "" := by
  intro he
  rw [he] at h
  have h0 : ("" : String).length = 0 := rfl
  omega

/-- Witness fixture: the spec's scenario operation
`bar(Tensor[] tensors) -> Tensor[]`, with no plain-`Tensor` parameter. -/
def barF : ExternalBackendFunction :=
  { native_function :=
      { func :=
          { name := "bar",
            args := [{ name := "tensors",
                       type := CType.list (CType.base BaseTy.Tensor) none,
                       annot := none }],
            returns := [{ name := none,
                          type := CType.list (CType.base BaseTy.Tensor) none,
                          is_write := false }] },
        dispatch := [{ name := "CPU", generic := false }],
        variants := [Variant.function] },
    metadata := none }

/-- Counterexample to C7: `bar` has zero plain-`Tensor` parameters, yet its
intermediates block still contains the plain-tensor vector conversion lines
(`xlatens_tensors = ...; auto xlatens = to_cpu(...)`) — that conversion is
emitted unconditionally, not only when a plain Tensor parameter exists. -/
theorem plain_conversion_unconditional_counterexample :
    tensors barF = [] ∧
    intermediates barF =
      "  auto l_tensors = to_cpu(tensors);\n  std::vector<at::Tensor> xlatens_tensors = \x7b\x7d;\n  auto xlatens = to_cpu(xlatens_tensors);" :=
  ⟨rfl, rfl⟩

/-- C7 (amended): the tensor-list conversion block is emitted exactly when a
`TensorList` parameter exists and the optional-tensor conversion block exactly
when an `OptionalTensor` parameter exists, while the plain-tensor vector
conversion is emitted unconditionally; the relative order of the blocks is
fixed across all operations — tensor-list, then plain-tensor, then
optional-tensor. -/
theorem conversion_blocks_structure :
    ∀ f : ExternalBackendFunction,
      (tensorlist_intermediates_str f = "" ↔ tensorlist_args f = []) ∧
      (opt_tensor_intermediates_str f = "" ↔ opt_tensors f = []) ∧
      intermediates f =
        (if tensorlist_args f = [] then "" else tensorlist_intermediates_str f ++ "\n")
          ++ "  std::vector<at::Tensor> xlatens_tensors = \x7b"
          ++ String.intercalate ", " ((tensor_args f).map (fun p => p.1.name))
          ++ "\x7d;"
          ++ "\n  auto xlatens = to_cpu(xlatens_tensors);"
          ++ (if opt_tensors f = [] then "" else opt_tensor_intermediates_str f) := by
  intro f
  have htl : tensorlist_intermediates_str f = "" ↔ tensorlist_args f = [] := by
    cases h : tensorlist_args f with
    | nil => simp [tensorlist_intermediates_str, h]
    | cons p t =>
        simp only [tensorlist_intermediates_str, h]
        constructor
        · intro he
          have hlen : 0 < (String.intercalate "\n"
              (((p :: t).map (fun q => "  auto " ++ q.2 ++ " = to_cpu(" ++ q.1.name ++ ");")))).length := by
            have hle := intercalate_cons_length "\n"
              ("  auto " ++ p.2 ++ " = to_cpu(" ++ p.1.name ++ ");")
              (t.map (fun q => "  auto " ++ q.2 ++ " = to_cpu(" ++ q.1.name ++ ");"))
            have h7 : ("  auto " : String).length = 7 := rfl
            simp only [List.map_cons] at *
            simp [String.length_append] at hle ⊢
            omega
          exact absurd he (by
            simp only [List.length_cons, Nat.zero_lt_succ, if_pos]
            exact ne_empty_of_length_pos (by simpa using hlen))
        · intro he; exact absurd he (by simp)
  have hopt : opt_tensor_intermediates_str f = "" ↔ opt_tensors f = [] := by
    cases h : opt_tensors f with
    | nil => simp [opt_tensor_intermediates_str, opt_tensor_args, h]
    | cons a t =>
        simp only [opt_tensor_intermediates_str, opt_tensor_args, h]
        constructor
        · intro he
          exfalso
          refine ne_empty_of_length_pos ?_ (by simpa using he)
          have hnl : 0 < ("\n  std::vector<c10::optional<at::Tensor>> xlatens_opt_tensors = \x7b" : String).length := by decide
          simp [String.length_append, List.length_map]
          omega
        · intro he; exact absurd he (by simp)
  refine ⟨htl, hopt, ?_⟩
  by_cases h1 : tensorlist_args f = [] <;> by_cases h2 : opt_tensors f = []
  · have e1 : tensorlist_intermediates_str f = "" := htl.mpr h1
    have e2 : opt_tensor_intermediates_str f = "" := hopt.mpr h2
    simp [intermediates, e1, e2, h1, h2]
  · have e1 : tensorlist_intermediates_str f = "" := htl.mpr h1
    have e2 : opt_tensor_intermediates_str f ≠ "" := fun hh => h2 (hopt.mp hh)
    simp [intermediates, e1, e2, h1, h2]
  · have e1 : tensorlist_intermediates_str f ≠ "" := fun hh => h1 (htl.mp hh)
    have e2 : opt_tensor_intermediates_str f = "" := hopt.mpr h2
    simp [intermediates, e1, e2, h1, h2]
  · have e1 : tensorlist_intermediates_str f ≠ "" := fun hh => h1 (htl.mp hh)
    have e2 : opt_tensor_intermediates_str f ≠ "" := fun hh => h2 (hopt.mp hh)
    simp [intermediates, e1, e2, h1, h2]

/-- C8: the call synthesizer captures the reference call's result into the
single fixed-name temporary exactly when the schema declares at least one
return; with zero returns the generated Definition has no capture, no
unused-variable-suppression line, and no return epilogue — the body is the
assembly over the empty return text. -/
theorem call_capture_rule :
    ∀ (f : ExternalBackendFunction) (sig : RenderedSig),
      (f.native_function.func.returns = [] →
        at_call f sig = at_call_raw f sig ∧
        avoid_warning f = "" ∧
        (∀ c, return_str f sig c = (Except.ok "", c)) ∧
        (∀ g c, requires_backend_wrapper f = true →
          gen_unstructured Target.NAMESPACED_DEFINITION g sig f c =
            (Except.ok (some (assemble f sig "")), c))) ∧
      (f.native_function.func.returns ≠ [] →
        at_call f sig = "auto&& " ++ cpu_result_name ++ " = " ++ at_call_raw f sig ∧
        avoid_warning f =
          "\n  static_cast<void>(" ++ cpu_result_name
            ++ "); // Avoid warnings in case not used") := by
  intro f sig
  constructor
  · intro h
    refine ⟨by simp [at_call, h], by simp [avoid_warning, h], ?_, ?_⟩
    · intro c
      simp [return_str, GenM.bind, returns_str_nil f sig h c, GenM.pure]
    · intro g c helig
      have hb := gen_definition_of_returns_str f g sig c "" c helig (returns_str_nil f sig h c)
      simpa using hb
  · intro hne
    have hE : f.native_function.func.returns.isEmpty = false := by
      cases h : f.native_function.func.returns with
      | nil => exact absurd h hne
      | cons a t => rfl
    constructor
    · simp [at_call, hE, List.isEmpty_iff, hne]
    · simp [avoid_warning, hE, List.isEmpty_iff, hne]

/-- Witness fixture: a structured family. -/
def structuredGrp : ExternalBackendFunctionsGroup :=
  { functional := fooF, inplace := none, out := none, structured := true }

/-- C9: a structured family makes the driver raise the fatal, non-recoverable
`AssertionError("Not Implemented")` — no text, whatever the target; a
non-structured family is processed member by member: whenever each member's
generation is independent (returning its own output and selector count), the
family output is exactly the concatenation of the per-member outputs with the
`none` contributions dropped. -/
theorem family_driver_rule :
    (∀ (target : Target) (env : NativeFunction → RenderedSig)
        (grp : ExternalBackendFunctionsGroup) (c : Nat),
      grp.structured = true →
      gen_call target env (GenInput.group grp) c
        = (Except.error (GenError.assertion "Not Implemented"), c)) ∧
    (∀ (target : Target) (env : NativeFunction → RenderedSig)
        (grp : ExternalBackendFunctionsGroup) (c : Nat)
        (h : ExternalBackendFunction → Option String) (k : ExternalBackendFunction → Nat),
      grp.structured = false →
      (∀ f ∈ grp.functions, ∀ c' : Nat,
        gen_unstructured target (GenInput.group grp) (env f.native_function) f c'
          = (Except.ok (h f), c' + k f)) →
      gen_call target env (GenInput.group grp) c
        = (Except.ok (grp.functions.filterMap h), c + (grp.functions.map k).sum)) := by
  constructor
  · intro target env grp c hs
    simp [gen_call, hs, GenM.throw]
  · intro target env grp c h k hs H
    have hmap := mapListGen_ok
      (fun f => gen_unstructured target (GenInput.group grp) (env f.native_function) f)
      h k grp.functions H c
    simp [gen_call, hs, GenM.bind, GenM.pure, hmap, List.filterMap_map]

/-- Witness for C9: the structured family aborts fatally, and the
non-structured two-member family under the registration target yields the
per-member outputs (both skipped to the empty string). -/
theorem family_driver_rule_witness :
    gen_call Target.REGISTRATION envSimple (GenInput.group structuredGrp) 0
      = (Except.error (GenError.assertion "Not Implemented"), 0) ∧
    gen_call Target.REGISTRATION envSimple (GenInput.group grpFuncMeta) 0
      = (Except.ok (grpFuncMeta.functions.filterMap (fun _ => some "")),
         0 + (grpFuncMeta.functions.map (fun _ => 0)).sum) :=
  ⟨family_driver_rule.1 Target.REGISTRATION envSimple structuredGrp 0 rfl,
   family_driver_rule.2 Target.REGISTRATION envSimple grpFuncMeta 0
     (fun _ => some "") (fun _ => 0) rfl
     (by
       intro f hf c'
       simp [ExternalBackendFunctionsGroup.functions, grpFuncMeta, List.mem_cons] at hf
       rcases hf with rfl | rfl <;> rfl)⟩

/-- C10: a target outside the three declared kinds does reach the
`assert_never` unreachable-state assertion on that target (source line 160);
but an input value that is neither a functions group nor a single function
does not — the source's final branch evaluates `assert_never(f)` with the
local `f` unassigned, so it raises `UnboundLocalError` for `f` instead of the
unreachable-state assertion on the unmatched value (source line 280). -/
theorem entry_point_unmatched :
    gen_call (Target.other "Target.ANONYMOUS_DEFINITION") envSimple (GenInput.fn fooF) 0
      = (Except.error (GenError.unreachable "Target.ANONYMOUS_DEFINITION"), 0) ∧
    (∀ (target : Target) (env : NativeFunction → RenderedSig) (c : Nat),
      gen_call target env (GenInput.other "the int 42") c
        = (Except.error (GenError.unboundLocal "f"), c)) :=
  ⟨rfl, fun _ _ _ => rfl⟩

end ExtFallback
